import Mathlib

/-!
Shallow embedding of the Chronyk library (src/chronyk/chronyk.py): the
Chronyk instant class, the ChronykDelta duration class, their string
parsers (relative phrases, absolute formats via a strptime model) and
renderers.  Host-clock and host-timezone functions (time.mktime,
time.localtime, datetime.utcnow, the local offset) are not part of the
repository; they enter the embedding as explicit parameters.  Python
floats are modelled as rationals, Python ints as Lean integers.
-/

/-! ## Python string helpers -/

/-- ASCII lowercasing of one character, as Python str.lower acts on the
ASCII inputs relevant here. -/
def pyLowerChar (c : Char) : Char :=
  if 'A' ≤ c ∧ c ≤ 'Z' then Char.ofNat (c.toNat + 32) else c

/-- Characters Python str.strip removes by default (ASCII whitespace). -/
def pyIsSpace (c : Char) : Bool :=
  c == ' ' || c == '\t' || c == '\n' || c == '\r' || c == '\x0b' || c == '\x0c'

/-- Python str.replace(". ", " "): left-to-right, non-overlapping. -/
def replaceDotSpace : List Char → List Char
  | '.' :: ' ' :: rest => ' ' :: replaceDotSpace rest
  | c :: rest => c :: replaceDotSpace rest
  | [] => []

/-- The normalisation done by Chronyk.__fromstring__ before any parsing:
timestr.lower().strip().replace(". ", " "). -/
def pyNormalize (s : String) : String :=
  ⟨replaceDotSpace ((((s.data.map pyLowerChar).dropWhile pyIsSpace).reverse.dropWhile
      pyIsSpace).reverse)⟩

/-- Python str.find(pat) != -1: substring containment. -/
def containsSub (pat : List Char) : List Char → Bool
  | [] => pat.isPrefixOf []
  | c :: rest => pat.isPrefixOf (c :: rest) || containsSub pat rest

/-- Helper for the lazy regex group: consume digits one at a time starting
at the current position and after each digit check whether the literal
tail (a space followed by the unit stem) follows; the first position where
it does ends the group.  This is the semantics of the non-greedy Python
pattern [0-9]+? followed by the literal. -/
def grabNum (unit : List Char) : ℕ → List Char → Option ℕ
  | acc, c :: rest =>
    if c.isDigit then
      let acc2 := acc * 10 + (c.toNat - 48)
      if unit.isPrefixOf rest then some acc2 else grabNum unit acc2 rest
    else none
  | _, [] => none

/-- Semantics of re.match(".*?([0-9]+?)" + unit, s) as used throughout the
source: the non-greedy prefix .*? (which cannot cross a newline) finds the
least starting position from which a digit run followed by the literal
unit matches; the lazy digit group then extends minimally.  Returns the
numeric value of the captured digits, or none when there is no match. -/
def findNumBefore (unit : List Char) : List Char → Option ℕ
  | [] => none
  | c :: rest =>
    if c == '\n' then none
    else
      match (if c.isDigit then grabNum unit 0 (c :: rest) else none) with
      | some n => some n
      | none => findNumBefore unit rest

/-! ## Chronyk: numeric construction and timestamp (lines 196-197, 528-539) -/

structure ChronykObj where
  timestamp : ℚ
  timezone : ℚ
  deriving DecidableEq, Repr

/-- Chronyk.__init__ numeric branch: self.__timestamp__ = timestr + self.timezone. -/
def Chronyk.ofNumeric (t tz : ℚ) : ChronykObj := ⟨t + tz, tz⟩

/-- Chronyk.timestamp(timezone): returns self.__timestamp__ - timezone, the
argument defaulting to the stored offset. -/
def Chronyk.timestampAt (c : ChronykObj) (tz : Option ℚ) : ℚ :=
  c.timestamp - tz.getD c.timezone

/-! ## Python rich-comparison protocol for Chronyk and ChronykDelta (C9) -/

/-- An operand of a comparison: a Chronyk instance, a ChronykDelta (just its
seconds), a plain int/float, or a value of any other type. -/
inductive PyVal where
  | chron (c : ChronykObj)
  | delta (seconds : ℚ)
  | num (q : ℚ)
  | other
  deriving DecidableEq

/-- Chronyk.__eq__ and ChronykDelta.__eq__: a boolean for same-class or
numeric operands, none for the NotImplemented sentinel otherwise. -/
def eqMethod : PyVal → PyVal → Option Bool
  | .chron x, .chron y => some (decide (x.timestamp = Chronyk.timestampAt y (some 0)))
  | .chron x, .num q => some (decide (x.timestamp = q))
  | .delta x, .delta y => some (decide (x = y))
  | .delta x, .num q => some (decide (x = q))
  | _, _ => none

/-- Chronyk.__gt__ and ChronykDelta.__gt__. -/
def gtMethod : PyVal → PyVal → Option Bool
  | .chron x, .chron y => some (decide (x.timestamp > Chronyk.timestampAt y (some 0)))
  | .chron x, .num q => some (decide (x.timestamp > q))
  | .delta x, .delta y => some (decide (x > y))
  | .delta x, .num q => some (decide (x > q))
  | _, _ => none

/-- Chronyk.__lt__ and ChronykDelta.__lt__. -/
def ltMethod : PyVal → PyVal → Option Bool
  | .chron x, .chron y => some (decide (x.timestamp < Chronyk.timestampAt y (some 0)))
  | .chron x, .num q => some (decide (x.timestamp < q))
  | .delta x, .delta y => some (decide (x < y))
  | .delta x, .num q => some (decide (x < q))
  | _, _ => none

/-- Python not applied to a rich-comparison method result: NotImplemented is
a truthy object, so not NotImplemented evaluates to False. -/
def pyNotCmp : Option Bool → Bool
  | some b => !b
  | none => false

/-- The != operator with a Chronyk or ChronykDelta left operand: __ne__
returns not self.__eq__(other), a plain bool, which is final. -/
def pyNe (a b : PyVal) : Bool := pyNotCmp (eqMethod a b)

/-- The <= operator: __le__ returns not self.__gt__(other). -/
def pyLe (a b : PyVal) : Bool := pyNotCmp (gtMethod a b)

/-- The >= operator: __ge__ returns not self.__lt__(other). -/
def pyGe (a b : PyVal) : Bool := pyNotCmp (ltMethod a b)

/-- The == operator: the left __eq__, then the reflected __eq__, then
identity comparison of distinct objects, which is False. -/
def pyEq (a b : PyVal) : Bool :=
  match eqMethod a b with
  | some r => r
  | none =>
    match eqMethod b a with
    | some r => r
    | none => false

/-- Operand types Chronyk's comparison methods do not support. -/
def chronykUnsupported : PyVal → Bool
  | .chron _ => false
  | .num _ => false
  | _ => true

/-- Operand types ChronykDelta's comparison methods do not support. -/
def deltaUnsupported : PyVal → Bool
  | .delta _ => false
  | .num _ => false
  | _ => true

/-! ## ChronykDelta: string parsing and rendering (lines 735-819) -/

/-- The unit table of ChronykDelta.__fromstring__. -/
def comps : List (String × ℕ) :=
  [("second", 1), ("minute", 60), ("hour", 3600), ("day", 86400),
   ("week", 604800), ("month", 2592000), ("year", 31536000)]

/-- ChronykDelta.__fromstring__: for each unit, the first integer
immediately preceding a space and the unit stem contributes value * weight;
a failed extraction is skipped. -/
def deltaFromstring (timestr : String) : ℚ :=
  comps.foldl (fun acc kv =>
    match findNumBefore (' ' :: kv.1.data) timestr.data with
    | some n => acc + (n : ℚ) * (kv.2 : ℚ)
    | none => acc) 0

/-- Python abs on a float, modelled on rationals. -/
def ratAbs (q : ℚ) : ℚ := if q < 0 then -q else q

/-- The custom _round: deci = num - floor(num), round up iff deci > 0.8
(the float literal 0.8 modelled as the rational 4/5). -/
def pyRound (num : ℚ) : ℤ :=
  if num - ⌊num⌋ > 4/5 then ⌊num⌋ + 1 else ⌊num⌋

/-- _pluralstr. -/
def pluralstr (s : String) (v : ℤ) : String :=
  if v = 1 then "1 " ++ s else toString v ++ " " ++ s ++ "s"

/-- The six-level decomposition computed by ChronykDelta.timestring: each
level is rounded with _round, clamped to be nonnegative (except the final
seconds level) and subtracted before the next level. -/
def timestringValues (seconds : ℚ) : List (String × ℤ) :=
  let y := pyRound (seconds / 31536000)
  let y := if y > 0 then y else 0
  let s1 := seconds - (y : ℚ) * 31536000
  let mo := pyRound (s1 / 2592000)
  let mo := if mo > 0 then mo else 0
  let s2 := s1 - (mo : ℚ) * 2592000
  let d := pyRound (s2 / 86400)
  let d := if d > 0 then d else 0
  let s3 := s2 - (d : ℚ) * 86400
  let h := pyRound (s3 / 3600)
  let h := if h > 0 then h else 0
  let s4 := s3 - (h : ℚ) * 3600
  let mi := pyRound (s4 / 60)
  let mi := if mi > 0 then mi else 0
  let sec := pyRound (s4 - (mi : ℚ) * 60)
  [("year", y), ("month", mo), ("day", d), ("hour", h), ("minute", mi), ("second", sec)]

/-- The segments actually rendered: the run of leading zero levels is
dropped (the pop loop), at most maxunits of the remaining levels are kept,
and only strictly positive counts survive the final filter. -/
def timestringSegs (seconds : ℚ) (maxunits : ℕ) : List (String × ℤ) :=
  (((timestringValues seconds).dropWhile (fun p => p.2 == 0)).take maxunits).filter
    (fun p => decide (0 < p.2))

/-- Joining: ", " between entries except " and " before the last; a single
entry bare; no entries gives the empty string. -/
def joinSegs : List String → String
  | [] => ""
  | [x] => x
  | [x, y] => x ++ " and " ++ y
  | x :: rest => x ++ ", " ++ joinSegs rest

/-- Checks whether an Except value is a success. -/
def exceptIsOk {ε α : Type} : Except ε α → Bool
  | .ok _ => true
  | .error _ => false

/-- ChronykDelta.timestring: raises ValueError for maxunits < 1, otherwise
renders the decomposition of abs(seconds). -/
def ChronykDelta.timestring (selfSeconds : ℚ) (maxunits : ℤ) : Except String String :=
  if maxunits < 1 then .error "Values < 1 for maxunits are not supported."
  else .ok (joinSegs ((timestringSegs (ratAbs selfSeconds) maxunits.toNat).map
    (fun p => pluralstr p.1 p.2)))

/-! ## Calendar model (datetime.date / calendar modules) -/

/-- A datetime.datetime value restricted to whole seconds (the relative
parser only ever adds integral deltas, and timetuple drops microseconds). -/
structure DateTime where
  year : ℤ
  month : ℤ
  day : ℤ
  hour : ℤ
  minute : ℤ
  second : ℤ
  deriving DecidableEq, Repr

/-- calendar.isleap. -/
def pyIsLeap (y : ℤ) : Bool :=
  y % 4 == 0 && (y % 100 != 0 || y % 400 == 0)

/-- Number of days in a month, as calendar.monthrange(year, month)[1]. -/
def monthLen (y m : ℤ) : ℤ :=
  if m = 2 then (if pyIsLeap y then 29 else 28)
  else if m = 4 ∨ m = 6 ∨ m = 9 ∨ m = 11 then 30
  else 31

/-- Days since 1970-01-01 of a civil date (proleptic Gregorian). -/
def daysFromCivil (y m d : ℤ) : ℤ :=
  let y2 := y - (if m ≤ 2 then 1 else 0)
  let era := Int.fdiv y2 400
  let yoe := y2 - era * 400
  let mp := m + (if m > 2 then -3 else 9)
  let doy := Int.fdiv (153 * mp + 2) 5 + d - 1
  let doe := yoe * 365 + Int.fdiv yoe 4 - Int.fdiv yoe 100 + doy
  era * 146097 + doe - 719468

/-- Civil date from days since 1970-01-01 (inverse of daysFromCivil). -/
def civilFromDays (z0 : ℤ) : ℤ × ℤ × ℤ :=
  let z := z0 + 719468
  let era := Int.fdiv z 146097
  let doe := z - era * 146097
  let yoe := Int.fdiv (doe - Int.fdiv doe 1460 + Int.fdiv doe 36524 - Int.fdiv doe 146096) 365
  let y := yoe + era * 400
  let doy := doe - (365 * yoe + Int.fdiv yoe 4 - Int.fdiv yoe 100)
  let mp := Int.fdiv (5 * doy + 2) 153
  let d := doy - Int.fdiv (153 * mp + 2) 5 + 1
  let m := mp + (if mp < 10 then 3 else -9)
  (y + (if m ≤ 2 then 1 else 0), m, d)

/-- A pure UTC-style epoch encoding of calendar fields; used to instantiate
the host time.mktime parameter in closed statements. -/
def epochOfDateTime (dt : DateTime) : ℤ :=
  daysFromCivil dt.year dt.month dt.day * 86400 + dt.hour * 3600 + dt.minute * 60 + dt.second

/-- Inverse of epochOfDateTime; instantiates the host time.localtime. -/
def dateTimeOfEpoch (t : ℤ) : DateTime :=
  let days := Int.fdiv t 86400
  let rem := Int.emod t 86400
  let c := civilFromDays days
  ⟨c.1, c.2.1, c.2.2, Int.fdiv rem 3600, Int.emod (Int.fdiv rem 60) 60, Int.emod rem 60⟩

/-- tm_wday of a date (Monday = 0, as in time.struct_time); 1970-01-01 was
a Thursday. -/
def weekdayOf (y m d : ℤ) : ℤ :=
  Int.emod (daysFromCivil y m d + 3) 7

/-! ## Error taxonomy of the Python exceptions that can escape parsing -/

/-- The exceptions Chronyk string construction can raise: the explicit
ValueError("Failed to parse time string.") at the end of __fromstring__,
the ValueError raised by datetime.replace / calendar.monthrange on an
invalid or out-of-range date, and the OverflowError raised when adding a
timedelta leaves the supported date range. -/
inductive PyErr where
  | formatError
  | dateValueError
  | overflowError
  deriving DecidableEq, Repr

/-! ## Chronyk.__fromrelative__ (lines 286-348) -/

/-- datetime.replace(year = ny): validates the range and that the day still
exists in the target month (Feb 29 in a non-leap year fails). -/
def dtReplaceYear (d : DateTime) (ny : ℤ) : Option DateTime :=
  if 1 ≤ ny ∧ ny ≤ 9999 ∧ d.day ≤ monthLen ny d.month then
    some { d with year := ny }
  else none

/-- The (newyear, newmonth, newday) computed by the month branch, exactly as
the source writes it: newyear uses int((...)/12), Python float division
followed by int() truncation toward zero (Int.tdiv), while newmonth uses
Python %, floor modulus (Int.emod); the while loop decrementing newday
until it fits the target month is its closed form min. -/
def monthShiftCode (year month day n coef : ℤ) : ℤ × ℤ × ℤ :=
  let x := (month - 1) + n * coef
  let ny := year + Int.tdiv x 12
  let nm := Int.emod x 12 + 1
  (ny, nm, min day (monthLen ny nm))

/-- The month shift as the spec states it: the year carry is the floor
division floor((month-1 + count*coef)/12), written Int.fdiv. -/
def monthShiftSpecFloor (year month day n coef : ℤ) : ℤ × ℤ × ℤ :=
  let x := (month - 1) + n * coef
  let ny := year + Int.fdiv x 12
  let nm := Int.emod x 12 + 1
  (ny, nm, min day (monthLen ny nm))

/-- The year step of __fromrelative__: if " year" occurs, extract the first
integer before it and replace the year field; a failed extraction is
skipped, an invalid replacement raises ValueError (uncaught). -/
def relYearStep (coef : ℤ) (t : List Char) (d : DateTime) : Except PyErr DateTime :=
  if containsSub " year".data t then
    match findNumBefore " year".data t with
    | none => .ok d
    | some n =>
      match dtReplaceYear d (d.year + (n : ℤ) * coef) with
      | some d2 => .ok d2
      | none => .error .dateValueError
  else .ok d

/-- The month step of __fromrelative__: calendar.monthrange raises
ValueError when newyear is outside datetime's range; otherwise the day is
clamped down to the target month length and replace succeeds. -/
def relMonthStep (coef : ℤ) (t : List Char) (d : DateTime) : Except PyErr DateTime :=
  if containsSub " month".data t then
    match findNumBefore " month".data t with
    | none => .ok d
    | some n =>
      let r := monthShiftCode d.year d.month d.day (n : ℤ) coef
      if 1 ≤ r.1 ∧ r.1 ≤ 9999 then
        .ok { d with year := r.1, month := r.2.1, day := r.2.2 }
      else .error .dateValueError
  else .ok d

/-- The fixed-unit table of the delta loop (weeks converted to seconds via
timedelta). -/
def deltaKeys : List (String × ℤ) :=
  [("week", 604800), ("day", 86400), ("hour", 3600), ("minute", 60), ("second", 1)]

/-- The delta accumulation loop: for each of week/day/hour/minute/second,
if the space-padded text mentions the stem, the first integer before it is
accumulated (0 on a failed extraction). -/
def relDeltaSecs (t : List Char) : ℤ :=
  deltaKeys.foldl (fun acc kv =>
    if containsSub (' ' :: kv.1.data) t then
      match findNumBefore (' ' :: kv.1.data) t with
      | some n => acc + (n : ℤ) * kv.2
      | none => acc
    else acc) 0

/-- datetime + timedelta(seconds): pure calendar arithmetic, raising
OverflowError when the result leaves the supported year range. -/
def addTimedelta (d : DateTime) (secs : ℤ) : Except PyErr DateTime :=
  let tot := daysFromCivil d.year d.month d.day * 86400
    + d.hour * 3600 + d.minute * 60 + d.second + secs
  let days := Int.fdiv tot 86400
  let rem := Int.emod tot 86400
  let c := civilFromDays days
  if 1 ≤ c.1 ∧ c.1 ≤ 9999 then
    .ok ⟨c.1, c.2.1, c.2.2, Int.fdiv rem 3600, Int.emod (Int.fdiv rem 60) 60, Int.emod rem 60⟩
  else .error .overflowError

/-- Chronyk.__fromrelative__: mk is the host _mktime applied to the final
timetuple, nowD the host datetime.utcnow().  Returns ok none when the text
contains neither " ago " nor " in " (after space padding); otherwise the
year step, month step and fixed-unit delta are applied in order. -/
def fromrelative (mk : DateTime → ℤ) (nowD : DateTime) (s : String) :
    Except PyErr (Option ℤ) :=
  let t : List Char := ' ' :: s.data ++ [' ']
  if ¬containsSub " ago ".data t ∧ ¬containsSub " in ".data t then .ok none
  else
    let coef : ℤ := if containsSub " in ".data t then 1 else -1
    match relYearStep coef t nowD with
    | .error e => .error e
    | .ok d1 =>
      match relMonthStep coef t d1 with
      | .error e => .error e
      | .ok d2 =>
        match addTimedelta d2 (coef * relDeltaSecs t) with
        | .error e => .error e
        | .ok d3 => .ok (some (mk d3))

/-! ## time.strptime model (the directives used by Chronyk's format tables)

CPython strptime compiles a format into a regex: whitespace in the format
matches a run of whitespace, other literals match case-insensitively, and
each directive has a fixed sub-pattern.  The model below implements the
digit directives with the same two-digits-preferred alternation (without
general backtracking, which these patterns do not need on the inputs the
claims evaluate), name directives by case-insensitive prefix, and treats
the locale-dependent %c and the unsupported %s directive as never
matching: %s raises ValueError (a bad directive) in CPython, and C-locale
%c requires the input to open with a weekday name, which no input
considered here does. -/

deriving instance DecidableEq for Except

structure StParsed where
  year : Option ℤ := none
  month : Option ℤ := none
  day : Option ℤ := none
  hour : Option ℤ := none
  hour12 : Option ℤ := none
  minute : Option ℤ := none
  second : Option ℤ := none
  pm : Option Bool := none
  deriving DecidableEq, Repr

/-- Numeric value of a digit character. -/
def digToInt (c : Char) : ℤ := ((c.toNat - 48 : ℕ) : ℤ)

/-- Exactly four digits (the %Y pattern). -/
def take4Digits : List Char → Option (ℤ × List Char)
  | a :: b :: c :: d :: rest =>
    if a.isDigit && b.isDigit && c.isDigit && d.isDigit then
      some (digToInt a * 1000 + digToInt b * 100 + digToInt c * 10 + digToInt d, rest)
    else none
  | _ => none

/-- Exactly two digits (the %y pattern). -/
def take2Digits : List Char → Option (ℤ × List Char)
  | a :: b :: rest =>
    if a.isDigit && b.isDigit then some (digToInt a * 10 + digToInt b, rest)
    else none
  | _ => none

/-- A one-or-two digit directive: two digits whenever their value is
accepted by the two-digit alternatives of the CPython pattern, else a
single accepted digit. -/
def numDirective (twoOk oneOk : ℤ → Bool) : List Char → Option (ℤ × List Char)
  | a :: b :: rest =>
    if a.isDigit && b.isDigit && twoOk (digToInt a * 10 + digToInt b) then
      some (digToInt a * 10 + digToInt b, rest)
    else if a.isDigit && oneOk (digToInt a) then some (digToInt a, b :: rest)
    else none
  | [a] => if a.isDigit && oneOk (digToInt a) then some (digToInt a, []) else none
  | [] => none

/-- First name in the list that is a case-insensitive prefix of the input;
returns its value and the remaining input. -/
def matchNameList : List (String × ℤ) → List Char → Option (ℤ × List Char)
  | [], _ => none
  | (n, v) :: rest, inp =>
    if (n.data.map pyLowerChar).isPrefixOf (inp.map pyLowerChar) then
      some (v, inp.drop n.data.length)
    else matchNameList rest inp

def monthAbbrNames : List (String × ℤ) :=
  [("jan", 1), ("feb", 2), ("mar", 3), ("apr", 4), ("may", 5), ("jun", 6),
   ("jul", 7), ("aug", 8), ("sep", 9), ("oct", 10), ("nov", 11), ("dec", 12)]

def monthFullNames : List (String × ℤ) :=
  [("january", 1), ("february", 2), ("march", 3), ("april", 4), ("may", 5),
   ("june", 6), ("july", 7), ("august", 8), ("september", 9), ("october", 10),
   ("november", 11), ("december", 12)]

/-- The %z pattern: a case-sensitive literal Z, or a sign and hhmm with an
optional colon (the optional seconds part is not modelled). -/
def skipZOffset : List Char → Option (List Char)
  | 'Z' :: rest => some rest
  | s :: a :: b :: rest =>
    if (s == '+' || s == '-') && a.isDigit && b.isDigit then
      match rest with
      | ':' :: c :: d :: r2 => if c.isDigit && d.isDigit then some r2 else none
      | c :: d :: r2 => if c.isDigit && d.isDigit then some r2 else none
      | _ => none
    else none
  | _ => none

/-- The %Z pattern restricted to the portable names utc and gmt (the host's
local timezone names are host configuration, not repository code). -/
def skipTzName (inp : List Char) : Option (List Char) :=
  if "utc".data.isPrefixOf (inp.map pyLowerChar) then some (inp.drop 3)
  else if "gmt".data.isPrefixOf (inp.map pyLowerChar) then some (inp.drop 3)
  else none

/-- The format interpreter: walks the format, consuming input; none on the
first mismatch or on an unmodelled directive; the whole input must be
consumed (strptime rejects unconverted trailing data). -/
def stRun : List Char → List Char → StParsed → Option StParsed
  | [], inp, st => if inp.isEmpty then some st else none
  | ['%'], _, _ => none
  | '%' :: f :: fmtRest, inp, st =>
    match f with
    | 'Y' =>
      match take4Digits inp with
      | some r => stRun fmtRest r.2 { st with year := some r.1 }
      | none => none
    | 'y' =>
      match take2Digits inp with
      | some r =>
        stRun fmtRest r.2
          { st with year := some (if r.1 ≤ 68 then 2000 + r.1 else 1900 + r.1) }
      | none => none
    | 'm' =>
      match numDirective (fun v => 1 ≤ v ∧ v ≤ 12) (fun v => 1 ≤ v) inp with
      | some r => stRun fmtRest r.2 { st with month := some r.1 }
      | none => none
    | 'd' =>
      match numDirective (fun v => 1 ≤ v ∧ v ≤ 31) (fun v => 1 ≤ v) inp with
      | some r => stRun fmtRest r.2 { st with day := some r.1 }
      | none => none
    | 'H' =>
      match numDirective (fun v => v ≤ 23) (fun _ => true) inp with
      | some r => stRun fmtRest r.2 { st with hour := some r.1 }
      | none => none
    | 'I' =>
      match numDirective (fun v => 1 ≤ v ∧ v ≤ 12) (fun v => 1 ≤ v) inp with
      | some r => stRun fmtRest r.2 { st with hour12 := some r.1 }
      | none => none
    | 'M' =>
      match numDirective (fun v => v ≤ 59) (fun _ => true) inp with
      | some r => stRun fmtRest r.2 { st with minute := some r.1 }
      | none => none
    | 'S' =>
      match numDirective (fun v => v ≤ 61) (fun _ => true) inp with
      | some r => stRun fmtRest r.2 { st with second := some r.1 }
      | none => none
    | 'b' =>
      match matchNameList monthAbbrNames inp with
      | some r => stRun fmtRest r.2 { st with month := some r.1 }
      | none => none
    | 'B' =>
      match matchNameList monthFullNames inp with
      | some r => stRun fmtRest r.2 { st with month := some r.1 }
      | none => none
    | 'p' =>
      match matchNameList [("am", 0), ("pm", 1)] inp with
      | some r => stRun fmtRest r.2 { st with pm := some (r.1 == 1) }
      | none => none
    | 'z' =>
      match skipZOffset inp with
      | some rest => stRun fmtRest rest st
      | none => none
    | 'Z' =>
      match skipTzName inp with
      | some rest => stRun fmtRest rest st
      | none => none
    | _ => none
  | c :: fmtRest, inp, st =>
    if pyIsSpace c then
      match inp with
      | i :: irest =>
        if pyIsSpace i then stRun fmtRest (irest.dropWhile pyIsSpace) st else none
      | [] => none
    else
      match inp with
      | i :: irest =>
        if pyLowerChar i == pyLowerChar c then stRun fmtRest irest st else none
      | [] => none

/-- Post-match assembly as in _strptime: defaults 1900-01-01 00:00:00, the
12-hour clock resolved through %p, and the date validated by constructing
datetime.date (ValueError on failure, i.e. none). -/
def stFinalize (st : StParsed) : Option DateTime :=
  let y := st.year.getD 1900
  let mo := st.month.getD 1
  let d := st.day.getD 1
  let h :=
    match st.hour, st.hour12, st.pm with
    | some h, _, _ => h
    | none, some i, some true => if i = 12 then 12 else i + 12
    | none, some i, _ => if i = 12 then 0 else i
    | none, none, _ => 0
  if 1 ≤ y ∧ y ≤ 9999 ∧ 1 ≤ mo ∧ mo ≤ 12 ∧ 1 ≤ d ∧ d ≤ monthLen y mo then
    some ⟨y, mo, d, h, st.minute.getD 0, st.second.getD 0⟩
  else none

/-- time.strptime(timestr, fmt) reduced to the calendar fields _mktime
consumes. -/
def strptimeRun (fmt inp : String) : Option DateTime :=
  (stRun fmt.data inp.data {}).bind stFinalize

/-! ## Chronyk.__fromabsolute__ (lines 350-472): the format tables -/

def datetimeformatsBase : List String :=
  ["%Y-%m-%dT%H:%M:%SZ", "%Y-%m-%dT%H:%M:%S%z", "%Y-%m-%dT%H:%M:%S%Z", "%c", "%s"]

def dateformats : List String :=
  ["%Y-%m-%d",
   "%Y%m%d",
   "%Y.%m.%d",
   "%m/%d/%Y",
   "%m/%d/%y",
   "%d %m %Y",
   "%d-%m-%Y",
   "%d/%m/%Y",
   "%d/%m %Y",
   "%d.%m.%Y",
   "%d. %m. %Y",
   "%d %b %Y",
   "%d %B %Y",
   "%d. %b %Y",
   "%d. %B %Y",
   "%b %d %Y",
   "%b %dst %Y",
   "%b %dnd %Y",
   "%b %drd %Y",
   "%b %dth %Y",
   "%b %d, %Y",
   "%b %dst, %Y",
   "%b %dnd, %Y",
   "%b %drd, %Y",
   "%b %dth, %Y",
   "%B %d %Y",
   "%B %dst %Y",
   "%B %dnd %Y",
   "%B %drd %Y",
   "%B %dth %Y",
   "%B %d, %Y",
   "%B %dst, %Y",
   "%B %dnd, %Y",
   "%B %drd, %Y",
   "%B %dth, %Y",
   "%d %m %y",
   "%d-%m-%y",
   "%d/%m/%y",
   "%d/%m-%y",
   "%d.%m.%y",
   "%d. %m. %y",
   "%d %b %y",
   "%d %B %y",
   "%d. %b %y",
   "%d. %B %y",
   "%b %dst %y",
   "%b %dnd %y",
   "%b %drd %y",
   "%b %dth %y",
   "%B %dst %y",
   "%B %dnd %y",
   "%B %drd %y",
   "%B %dth %y"]

def timeformats : List String :=
  ["%H:%M:%S %z",
   "%H:%M:%S %z",
   "%H:%M:%S",
   "%H:%M %z",
   "%H:%M %Z",
   "%H:%M",
   "%I:%M:%S %p %z",
   "%I:%M:%S %p %Z",
   "%I:%M:%S %p",
   "%I:%M %p %z",
   "%I:%M %p %Z",
   "%I:%M %p"]

/-- The combined candidate list, in the exact order the source builds it:
the base entries, then for each date format all its date-time combinations
followed by the bare date format. -/
def datetimeformats : List String :=
  datetimeformatsBase ++
    dateformats.flatMap (fun df => timeformats.map (fun tf => df ++ " " ++ tf) ++ [df])

/-- Whether the format mentions a zone directive ("z" in fmt.lower()). -/
def hasZChar (f : String) : Bool := f.data.any (fun c => c == 'z' || c == 'Z')

/-- First format in the list that parses the input. -/
def tryFormats : List String → String → Option (DateTime × Bool)
  | [], _ => none
  | f :: rest, inp =>
    match strptimeRun f inp with
    | some dt => some (dt, hasZChar f)
    | none => tryFormats rest inp

/-- Chronyk.__fromabsolute__: tries every datetime/date candidate, then the
time-only candidates against today's date (todayStr models the host
_strftime of today) prefixed to the input; a format without a zone
directive has the construction offset tz added. -/
def fromabsolute (mk : DateTime → ℤ) (tz : ℤ) (todayStr timestr : String) : Option ℤ :=
  match tryFormats datetimeformats timestr with
  | some (dt, hz) => some (mk dt + (if hz then 0 else tz))
  | none =>
    match tryFormats (timeformats.map (fun tf => "%Y-%m-%d " ++ tf))
        (todayStr ++ " " ++ timestr) with
    | some (dt, hz) => some (mk dt + (if hz then 0 else tz))
    | none => none

/-! ## Chronyk.__fromstring__ (lines 474-496), ctime and relativestring -/

def commonNowStrings : List String :=
  ["today", "now", "this week", "this month", "this day"]

def commonYesterdayStrings : List String := ["yesterday", "yester day"]

def commonYesteryearStrings : List String := ["yesteryear", "yester year"]

/-- Chronyk.__fromstring__: normalise, then common phrases, then the
relative parser, then the absolute matcher, and only when all of these
fail raise ValueError("Failed to parse time string.").  nowUtc models
currentutc(), nowD datetime.utcnow(), mk the host _mktime of a timetuple,
tz the construction offset self.timezone and todayStr today's date
string. -/
def fromstring (mk : DateTime → ℤ) (nowD : DateTime) (nowUtc tz : ℤ)
    (todayStr s : String) : Except PyErr ℤ :=
  let t := pyNormalize s
  if t ∈ commonNowStrings then .ok nowUtc
  else if t ∈ commonYesterdayStrings then .ok (nowUtc - 24 * 3600)
  else if t ∈ commonYesteryearStrings then
    match dtReplaceYear nowD (nowD.year - 1) with
    | some d => .ok (mk d)
    | none => .error .dateValueError
  else
    match fromrelative mk nowD t with
    | .error e => .error e
    | .ok (some r) => .ok r
    | .ok none =>
      match fromabsolute mk tz todayStr t with
      | some a => .ok a
      | none => .error .formatError

def ctimeDayNames : List String := ["Mon", "Tue", "Wed", "Thu", "Fri", "Sat", "Sun"]

def ctimeMonthNames : List String :=
  ["Jan", "Feb", "Mar", "Apr", "May", "Jun", "Jul", "Aug", "Sep", "Oct", "Nov", "Dec"]

/-- Zero-padded two-digit field. -/
def pad2 (n : ℤ) : String := if n < 10 then "0" ++ toString n else toString n

/-- Space-padded day of month as asctime prints it. -/
def padDay (n : ℤ) : String := if n < 10 then " " ++ toString n else toString n

/-- time.asctime of a struct whose weekday is consistent with its date, as
time.localtime always produces. -/
def asctimeOf (dt : DateTime) : String :=
  ctimeDayNames.getD (weekdayOf dt.year dt.month dt.day).toNat "???" ++ " " ++
    ctimeMonthNames.getD (dt.month - 1).toNat "???" ++ " " ++ padDay dt.day ++ " " ++
    pad2 dt.hour ++ ":" ++ pad2 dt.minute ++ ":" ++ pad2 dt.second ++ " " ++
    toString dt.year

/-- Chronyk.ctime: time.ctime(self.__timestamp__ - timezone), with loct the
host time.localtime. -/
def Chronyk.ctimeAt (loct : ℤ → DateTime) (selfTs tz : ℤ) : String :=
  asctimeOf (loct (selfTs - tz))

/-- Chronyk(timestr).ctime() for a string argument: the constructor stores
__fromstring__'s result and ctime renders it shifted back by the same
stored offset. -/
def chronykStringCtime (mk : DateTime → ℤ) (loct : ℤ → DateTime) (nowD : DateTime)
    (nowUtc tz : ℤ) (todayStr s : String) : Except PyErr String :=
  match fromstring mk nowD nowUtc tz todayStr s with
  | .error e => .error e
  | .ok ts => .ok (Chronyk.ctimeAt loct ts tz)

/-- Chronyk.relativestring (lines 574-628): timestringFn models
self.timestring(pattern), which formats through the host strftime. -/
def relativestring (timestringFn : String → String) (selfTs tz now minimum maximum : ℚ)
    (pattern : String) (maxunits : ℤ) : Except String String :=
  let diff := now - (selfTs - tz)
  let future := diff < 0
  let adiff := ratAbs diff
  if adiff < minimum then .ok "just now"
  else if adiff > maximum ∧ maximum > 0 then .ok (timestringFn pattern)
  else
    match ChronykDelta.timestring adiff maxunits with
    | .error e => .error e
    | .ok ts =>
      if ts = "1 day" then .ok (if future then "tomorrow" else "yesterday")
      else .ok (if future then "in " ++ ts else ts ++ " ago")

/-! ## Theorems -/

/-- C2: Instant(t, offset=Z).timestamp(offset=Z2) equals t + Z - Z2 for all
finite numeric t and offsets Z, Z2 (offset re-basing is a pure linear
shift); in particular Instant(t, offset=0).timestamp(offset=0) = t. -/
theorem timestamp_rebase_linear (t Z Z2 : ℚ) :
    Chronyk.timestampAt (Chronyk.ofNumeric t Z) (some Z2) = t + Z - Z2 ∧
    Chronyk.timestampAt (Chronyk.ofNumeric t 0) (some 0) = t := by
  constructor <;> simp [Chronyk.timestampAt, Chronyk.ofNumeric]

/-- C1: evaluation of the month shift at the failing input.  With reference
instant 2015-01-15 12:00:00, "1 month ago" gives month index
(1-1) + 1*(-1) = -1; Python int(-1/12) truncates toward zero to 0, so the
code lands on 2015-12-15, a date in the future of the reference, whereas
the floor-division carry the claim and spec state lands on 2014-12-15. -/
theorem fromrelative_month_truncation_bug :
    fromrelative epochOfDateTime ⟨2015, 1, 15, 12, 0, 0⟩ "1 month ago" =
      .ok (some (epochOfDateTime ⟨2015, 12, 15, 12, 0, 0⟩)) ∧
    monthShiftCode 2015 1 15 1 (-1) = (2015, 12, 15) ∧
    monthShiftSpecFloor 2015 1 15 1 (-1) = (2014, 12, 15) ∧
    epochOfDateTime ⟨2015, 12, 15, 12, 0, 0⟩ ≠ epochOfDateTime ⟨2014, 12, 15, 12, 0, 0⟩ := by
  decide

/-- C3: evaluation of relativestring at the failing input maximum = 0.  The
guard is diff > maximum and maximum > 0, so maximum = 0 disables the
absolute fallback (contradicting the docstring, by which only a value < 0
disables it): with diff = 20 ≥ minimum = 10 the code returns the relative
phrase instead of the fallback pattern rendering. -/
theorem relativestring_maximum_zero_no_fallback :
    relativestring (fun _ => "FALLBACK") 100 0 120 10 0 "%Y-%m-%d" 1 =
      .ok "20 seconds ago" ∧
    relativestring (fun _ => "FALLBACK") 100 0 120 10 15 "%Y-%m-%d" 1 =
      .ok "FALLBACK" := by
  have hv20 : timestringValues 20 =
      [("year", 0), ("month", 0), ("day", 0), ("hour", 0), ("minute", 0), ("second", 20)] := by
    simp only [timestringValues, pyRound]
    norm_num
  have habs : ratAbs ((120 : ℚ) - (100 - 0)) = 20 := by norm_num [ratAbs]
  have ht : ChronykDelta.timestring 20 1 = .ok "20 seconds" := by
    have h : ratAbs 20 = 20 := by norm_num [ratAbs]
    simp [ChronykDelta.timestring, h, timestringSegs, hv20, joinSegs, pluralstr]
    rfl
  constructor
  · simp only [relativestring, habs, ht]
    norm_num
    rfl
  · simp only [relativestring, habs]
    norm_num

/-- C4: rendering a zero duration: the decomposition of 0 seconds is
all-zero, the leading zero run is dropped leaving no segments, and
Duration(0).render() returns the empty string normally for every
maxUnits ≥ 1. -/
theorem duration_zero_renders_empty (m : ℤ) (h : 1 ≤ m) :
    timestringValues 0 =
      [("year", 0), ("month", 0), ("day", 0), ("hour", 0), ("minute", 0), ("second", 0)] ∧
    timestringSegs 0 m.toNat = [] ∧
    ChronykDelta.timestring 0 m = .ok "" := by
  have hv : timestringValues 0 =
      [("year", 0), ("month", 0), ("day", 0), ("hour", 0), ("minute", 0), ("second", 0)] := by
    simp only [timestringValues, pyRound]
    norm_num
  have habs : ratAbs 0 = 0 := by norm_num [ratAbs]
  have hm : ¬m < 1 := by omega
  refine ⟨hv, ?_, ?_⟩
  · simp [timestringSegs, hv]
  · simp [ChronykDelta.timestring, hm, timestringSegs, habs, hv, joinSegs]

/-- C4 witness at maxUnits = 3 (the render default). -/
theorem duration_zero_renders_empty_witness :
    ChronykDelta.timestring 0 3 = .ok "" :=
  (duration_zero_renders_empty 3 (by decide)).2.2

/-- C5: render(maxUnits) raises ValueError exactly for maxUnits < 1: any
duration with maxUnits < 1 gives the error, and any maxUnits ≥ 1 does
not. -/
theorem timestring_maxunits_contract (sec : ℚ) (m m2 : ℤ) (h : m < 1) (h2 : 1 ≤ m2) :
    ChronykDelta.timestring sec m = .error "Values < 1 for maxunits are not supported." ∧
    exceptIsOk (ChronykDelta.timestring sec m2) = true := by
  have hm2 : ¬m2 < 1 := by omega
  constructor
  · simp [ChronykDelta.timestring, h]
  · simp [ChronykDelta.timestring, hm2, exceptIsOk]

/-- C5 witness: Duration("1 day ago") rejects maxUnits = 0 and accepts the
default maxUnits = 3. -/
theorem timestring_maxunits_contract_witness :
    ChronykDelta.timestring (deltaFromstring "1 day ago") 0 =
      .error "Values < 1 for maxunits are not supported." ∧
    exceptIsOk (ChronykDelta.timestring (deltaFromstring "1 day ago") 3) = true :=
  timestring_maxunits_contract (deltaFromstring "1 day ago") 0 3 (by decide) (by decide)

/-- C9: for an operand v of a type that is neither the same class nor
int/float, the comparison methods return the negation of the truthy
NotImplemented sentinel: x != v, x <= v and x >= v all evaluate to False
rather than raising, while x == v is also False, so != is not the logical
negation of ==. -/
theorem comparisons_false_on_unsupported (x : ChronykObj) (d : ℚ) (v w : PyVal)
    (hv : chronykUnsupported v = true) (hw : deltaUnsupported w = true) :
    pyNe (.chron x) v = false ∧ pyEq (.chron x) v = false ∧
    pyLe (.chron x) v = false ∧ pyGe (.chron x) v = false ∧
    pyNe (.delta d) w = false ∧ pyEq (.delta d) w = false ∧
    pyLe (.delta d) w = false ∧ pyGe (.delta d) w = false := by
  cases v <;> cases w <;>
    simp_all [pyNe, pyEq, pyLe, pyGe, eqMethod, gtMethod, ltMethod, pyNotCmp,
      chronykUnsupported, deltaUnsupported]

/-- C9 witness at an arbitrary-type operand. -/
theorem comparisons_false_on_unsupported_witness :
    pyNe (.chron ⟨0, 0⟩) .other = false ∧ pyEq (.chron ⟨0, 0⟩) .other = false ∧
    pyLe (.chron ⟨0, 0⟩) .other = false ∧ pyGe (.chron ⟨0, 0⟩) .other = false ∧
    pyNe (.delta 0) .other = false ∧ pyEq (.delta 0) .other = false ∧
    pyLe (.delta 0) .other = false ∧ pyGe (.delta 0) .other = false :=
  comparisons_false_on_unsupported ⟨0, 0⟩ 0 .other .other (by decide) (by decide)

/-- C10: every segment of a rendered duration has count ≥ 1, because the
final filter keeps only strictly positive counts; the decomposition of 59
seconds shows the unclamped seconds slot can be negative (minute rounds up
to 1, second becomes -1) yet no nonpositive segment is rendered. -/
theorem timestring_segs_positive (sec : ℚ) (m : ℕ) (p : String × ℤ)
    (hp : p ∈ timestringSegs sec m) :
    1 ≤ p.2 ∧ timestringValues 59 =
      [("year", 0), ("month", 0), ("day", 0), ("hour", 0), ("minute", 1), ("second", -1)] := by
  constructor
  · have h2 := (List.mem_filter.mp hp).2
    have h3 := of_decide_eq_true h2
    omega
  · simp only [timestringValues, pyRound]
    norm_num

/-- C10 witness: the one segment rendered for 59 seconds is "1 minute". -/
theorem timestring_segs_positive_witness :
    1 ≤ (("minute", (1 : ℤ)) : String × ℤ).2 ∧ timestringValues 59 =
      [("year", 0), ("month", 0), ("day", 0), ("hour", 0), ("minute", 1), ("second", -1)] :=
  timestring_segs_positive 59 3 ("minute", 1) (by
    have hv : timestringValues 59 =
        [("year", 0), ("month", 0), ("day", 0), ("hour", 0), ("minute", 1), ("second", -1)] := by
      simp only [timestringValues, pyRound]
      norm_num
    simp [timestringSegs, hv])

/-- The running accumulation in ChronykDelta.__fromstring__ equals the sum
of the per-unit contributions. -/
theorem deltaFromstring_foldl_eq (t : List Char) (l : List (String × ℕ)) (acc : ℚ) :
    l.foldl (fun acc kv =>
      match findNumBefore (' ' :: kv.1.data) t with
      | some n => acc + (n : ℚ) * (kv.2 : ℚ)
      | none => acc) acc
    = acc + (l.map (fun kv =>
        (((findNumBefore (' ' :: kv.1.data) t).getD 0 : ℕ) : ℚ) * (kv.2 : ℚ))).sum := by
  induction l generalizing acc with
  | nil => simp
  | cons kv rest ih =>
    simp only [List.foldl_cons, List.map_cons, List.sum_cons]
    rcases h : findNumBefore (' ' :: kv.1.data) t with _ | n
    · simp [h, ih]
    · simp [h, ih]
      ring

/-- C7: Duration string parsing is exactly the weighted sum, over the seven
units with weights {second 1, minute 60, hour 3600, day 86400, week 604800,
month 2592000, year 31536000}, of the first integer immediately preceding a
space and the unit stem, a failed or absent extraction contributing 0; the
parse is total, and a string in which no unit extraction succeeds parses to
0 seconds. -/
theorem delta_fromstring_weighted_sum (s s2 : String)
    (h2 : ∀ kv ∈ comps, findNumBefore (' ' :: kv.1.data) s2.data = none) :
    deltaFromstring s =
      (((findNumBefore (' ' :: "second".data) s.data).getD 0 : ℕ) : ℚ) * 1 +
      (((findNumBefore (' ' :: "minute".data) s.data).getD 0 : ℕ) : ℚ) * 60 +
      (((findNumBefore (' ' :: "hour".data) s.data).getD 0 : ℕ) : ℚ) * 3600 +
      (((findNumBefore (' ' :: "day".data) s.data).getD 0 : ℕ) : ℚ) * 86400 +
      (((findNumBefore (' ' :: "week".data) s.data).getD 0 : ℕ) : ℚ) * 604800 +
      (((findNumBefore (' ' :: "month".data) s.data).getD 0 : ℕ) : ℚ) * 2592000 +
      (((findNumBefore (' ' :: "year".data) s.data).getD 0 : ℕ) : ℚ) * 31536000 ∧
    deltaFromstring s2 = 0 := by
  constructor
  · rw [deltaFromstring, deltaFromstring_foldl_eq]
    simp only [comps, List.map_cons, List.map_nil, List.sum_cons, List.sum_nil]
    push_cast
    ring
  · have e1 := h2 ("second", 1) (by simp [comps])
    have e2 := h2 ("minute", 60) (by simp [comps])
    have e3 := h2 ("hour", 3600) (by simp [comps])
    have e4 := h2 ("day", 86400) (by simp [comps])
    have e5 := h2 ("week", 604800) (by simp [comps])
    have e6 := h2 ("month", 2592000) (by simp [comps])
    have e7 := h2 ("year", 31536000) (by simp [comps])
    rw [deltaFromstring, deltaFromstring_foldl_eq]
    simp [comps, e1, e2, e3, e4, e5, e6, e7]

/-- C7 witness: a string mentioning no unit parses to 0. -/
theorem delta_fromstring_weighted_sum_witness :
    deltaFromstring "warglblargl" = 0 :=
  (delta_fromstring_weighted_sum "x" "warglblargl" (by decide)).2

/-- The year step of the relative parser errors only with the date
ValueError, never with the parse-failure ValueError. -/
theorem relYearStep_ne_formatError (coef : ℤ) (t : List Char) (d : DateTime) :
    relYearStep coef t d ≠ .error .formatError := by
  unfold relYearStep
  split
  · split
    · simp
    · split <;> simp
  · simp

/-- The month step errors only with the date ValueError. -/
theorem relMonthStep_ne_formatError (coef : ℤ) (t : List Char) (d : DateTime) :
    relMonthStep coef t d ≠ .error .formatError := by
  unfold relMonthStep
  dsimp only
  split
  · split
    · simp
    · split <;> simp
  · simp

/-- Adding a timedelta errors only with OverflowError. -/
theorem addTimedelta_ne_formatError (d : DateTime) (secs : ℤ) :
    addTimedelta d secs ≠ .error .formatError := by
  unfold addTimedelta
  dsimp only
  split <;> simp

/-- The relative parser itself never raises the parse-failure ValueError:
all its internal non-match conditions are soft skips. -/
theorem fromrelative_ne_formatError (mk : DateTime → ℤ) (nowD : DateTime) (s : String) :
    fromrelative mk nowD s ≠ .error .formatError := by
  unfold fromrelative
  dsimp only
  split
  · simp
  · split
    next e heq =>
      intro hc
      injection hc with h
      exact relYearStep_ne_formatError _ _ _ (h ▸ heq)
    next d1 heq =>
      split
      next e2 heq2 =>
        intro hc
        injection hc with h
        exact relMonthStep_ne_formatError _ _ _ (h ▸ heq2)
      next d2 heq2 =>
        split
        next e3 heq3 =>
          intro hc
          injection hc with h
          exact addTimedelta_ne_formatError _ _ (h ▸ heq3)
        next d3 heq3 => simp

set_option maxRecDepth 100000 in
/-- C6: string construction raises FormatError exactly when the normalised
text is none of the literal common phrases, the relative parser yields no
result, and no absolute-format candidate matches; internal non-match and
malformed-number conditions are soft skips that never surface on their
own.  The closed conjunct evaluates the concrete example: parsing
"warglblargl" raises FormatError. -/
theorem fromstring_formatError_iff (mk : DateTime → ℤ) (nowD : DateTime) (nowUtc tz : ℤ)
    (todayStr s : String) :
    (fromstring mk nowD nowUtc tz todayStr s = .error .formatError ↔
      (pyNormalize s ∉ commonNowStrings ∧ pyNormalize s ∉ commonYesterdayStrings ∧
       pyNormalize s ∉ commonYesteryearStrings ∧
       fromrelative mk nowD (pyNormalize s) = .ok none ∧
       fromabsolute mk tz todayStr (pyNormalize s) = none)) ∧
    fromstring epochOfDateTime ⟨2015, 6, 15, 12, 0, 0⟩ 0 3600 "2015-06-15" "warglblargl" =
      .error .formatError := by
  constructor
  · unfold fromstring
    by_cases h1 : pyNormalize s ∈ commonNowStrings
    · simp [h1]
    · by_cases h2 : pyNormalize s ∈ commonYesterdayStrings
      · simp [h1, h2]
      · by_cases h3 : pyNormalize s ∈ commonYesteryearStrings
        · rcases hr : dtReplaceYear nowD (nowD.year - 1) with _ | d <;>
            simp [h1, h2, h3, hr]
        · rcases hrel : fromrelative mk nowD (pyNormalize s) with e | o
          · have hne : e ≠ .formatError := fun hh =>
              fromrelative_ne_formatError mk nowD (pyNormalize s) (hh ▸ hrel)
            simp [h1, h2, h3, hrel, hne]
          · rcases o with _ | r
            · rcases habs : fromabsolute mk tz todayStr (pyNormalize s) with _ | a <;>
                simp [h1, h2, h3, hrel, habs]
            · simp [h1, h2, h3, hrel]
  · decide

/-- Parsing the two concrete absolute inputs: each matches the ISO
candidate without a zone directive, so _mktime's value plus the
construction offset is stored, for any host mktime and any offset. -/
theorem fromstring_iso_inputs (mk : DateTime → ℤ) (nowD : DateTime) (nowUtc tz : ℤ)
    (todayStr : String) :
    fromstring mk nowD nowUtc tz todayStr "2014-09-18 11:24:47" =
      .ok (mk ⟨2014, 9, 18, 11, 24, 47⟩ + tz) ∧
    fromstring mk nowD nowUtc tz todayStr "2014-09-18" =
      .ok (mk ⟨2014, 9, 18, 0, 0, 0⟩ + tz) := by
  constructor <;> rfl

/-- C8: parsing an absolute datetime string and rendering it back with
ctime reproduces the wall-clock fields for every host mktime/localtime
pair that inverts on the parsed instant and every timezone offset: the
offset added during construction is subtracted again by ctime. -/
theorem ctime_roundtrip_wallclock (mk : DateTime → ℤ) (loct : ℤ → DateTime) (nowD : DateTime)
    (nowUtc tz : ℤ) (todayStr : String)
    (h1 : loct (mk ⟨2014, 9, 18, 11, 24, 47⟩) = ⟨2014, 9, 18, 11, 24, 47⟩)
    (h2 : loct (mk ⟨2014, 9, 18, 0, 0, 0⟩) = ⟨2014, 9, 18, 0, 0, 0⟩) :
    chronykStringCtime mk loct nowD nowUtc tz todayStr "2014-09-18 11:24:47" =
      .ok "Thu Sep 18 11:24:47 2014" ∧
    chronykStringCtime mk loct nowD nowUtc tz todayStr "2014-09-18" =
      .ok "Thu Sep 18 00:00:00 2014" := by
  have hfs := fromstring_iso_inputs mk nowD nowUtc tz todayStr
  constructor
  · simp only [chronykStringCtime, hfs.1, Chronyk.ctimeAt, add_sub_cancel_right, h1]
    rfl
  · simp only [chronykStringCtime, hfs.2, Chronyk.ctimeAt, add_sub_cancel_right, h2]
    rfl

/-- C8 witness: the pure epoch encoding and its inverse instantiate the
host conversions, with a nonzero offset. -/
theorem ctime_roundtrip_wallclock_witness :
    chronykStringCtime epochOfDateTime dateTimeOfEpoch ⟨2026, 10, 12, 9, 0, 0⟩ 0 3600
        "2026-10-12" "2014-09-18 11:24:47" = .ok "Thu Sep 18 11:24:47 2014" ∧
    chronykStringCtime epochOfDateTime dateTimeOfEpoch ⟨2026, 10, 12, 9, 0, 0⟩ 0 3600
        "2026-10-12" "2014-09-18" = .ok "Thu Sep 18 00:00:00 2014" :=
  ctime_roundtrip_wallclock epochOfDateTime dateTimeOfEpoch ⟨2026, 10, 12, 9, 0, 0⟩ 0 3600
    "2026-10-12" (by decide) (by decide)
